import Mathlib

/-!
Verification development for the `true_mock` data-generation engine.

The definitions below are a shallow embedding of the Python sources:
`src/core/columns.py` (value generators), `src/core/base_table.py`
(table models), `src/core/relations.py` (relations, pools, registry) and
`src/core/data_inserter.py` (batch insertion driver).

Randomness is modelled by explicit streams: `random.random()` outcomes
are a stream of rationals in the unit interval, and the integer-valued
primitives (`random.randint`, the index picked by `random.choice`) are a
stream of naturals.  Every theorem quantifies over the streams, so it
holds for every possible sequence of random outcomes.  Python exceptions
(`KeyError`, `IndexError`) are modelled with `Except`.
-/

namespace TrueMock

/-- Scalar values a generated cell can hold (`None`, ints, strings, bools). -/
inductive Value where
  | null
  | int (n : Int)
  | str (s : String)
  | bool (b : Bool)
deriving Repr, DecidableEq

/-- A generated row: Python dict from column name to value, in insertion order. -/
abbrev Row := List (String × Value)

/-- First-match association lookup, the semantics of Python `dict.get`. -/
def afind {α : Type} : List (String × α) → String → Option α
  | [], _ => none
  | p :: ps, k => if p.1 = k then some p.2 else afind ps k

/-- Bool-valued key membership in an association list. -/
def akeyMem {α : Type} : List (String × α) → String → Bool
  | [], _ => false
  | p :: ps, k => if p.1 = k then true else akeyMem ps k

/-- Python dict assignment `d[k] = v`: update in place when the key exists,
append otherwise. -/
def aset {α : Type} (l : List (String × α)) (k : String) (v : α) : List (String × α) :=
  if akeyMem l k then l.map (fun p => if p.1 = k then (k, v) else p) else l ++ [(k, v)]

/-- Stream-based model of the `random` module: `qs` are the successive
outcomes of `random.random()`, `ns` the successive integer draws; `qi`
and `ni` count how many of each have been consumed so far. -/
structure Rng where
  qs : Nat → ℚ
  ns : Nat → Nat
  qi : Nat
  ni : Nat

/-- One `random.random()` call. -/
def Rng.random (r : Rng) : ℚ × Rng := (r.qs r.qi, { r with qi := r.qi + 1 })

/-- One integer draw. -/
def Rng.randNat (r : Rng) : Nat × Rng := (r.ns r.ni, { r with ni := r.ni + 1 })

/-- A value generator: consumes randomness, returns a value.  This is the
shape of both the `generator` lambdas attached to columns and of the
`default_generator` methods. -/
abbrev GenFun := Rng → Value × Rng

/-- `random.randint(mn, mx)` over the integers (faithful for `mn ≤ mx`):
the draw is mapped into the inclusive range. -/
def randintInt (mn mx : Int) : GenFun := fun r =>
  let p := r.randNat
  (Value.int (mn + (Int.ofNat p.1) % (mx - mn + 1)), p.2)

/-- A generator that ignores randomness, e.g. a constant lambda. -/
def constGen (v : Value) : GenFun := fun r => (v, r)

/-- `Column` from `src/core/columns.py`.  `Column.__init__` stores
`nullable`, `unique` and the optional custom `generator`; subclass
dispatch of `default_generator` is the `defaultGen` field.  The
`skip_generation` field models the attribute of that name that
`ModelGenerator` emits and `DataInserter` reads via `getattr` with
default `False`; `Column.__init__` itself neither accepts nor stores it,
and nothing in `Column.generate` reads it. -/
structure Column where
  nullable : Bool
  unique : Bool
  generator : Option GenFun
  defaultGen : GenFun
  skip_generation : Bool

/-- `Column.generate` (`src/core/columns.py`, lines 35-46): when the
column is nullable, draw `random.random()` and return `None` if the draw
is below `0.1`; otherwise call the custom generator when present, else
the type-specific default generator.  The random draw happens only when
`nullable` is true, matching the short-circuit of the Python `and`. -/
def Column.generate (c : Column) (r : Rng) : Value × Rng :=
  if c.nullable then
    let p := r.random
    if p.1 < (1 : ℚ) / 10 then (Value.null, p.2)
    else
      match c.generator with
      | some g => g p.2
      | none => c.defaultGen p.2
  else
    match c.generator with
    | some g => g r
    | none => c.defaultGen r

/-- `RelationConfig` from `src/core/relations.py` with its defaults. -/
structure RelationConfig where
  min_related : Nat
  max_related : Nat
  auto_generate : Bool
  cache_existing : Bool
  pool_size : Nat

/-- The default `RelationConfig()`. -/
def RelationConfig.default : RelationConfig :=
  { min_related := 1, max_related := 5, auto_generate := true,
    cache_existing := true, pool_size := 10 }

/-- The four relation subclasses of `src/core/relations.py`. -/
inductive RelKind where
  | oneToOne
  | manyToOne
  | oneToMany
  | manyToMany
deriving Repr, DecidableEq

/-- A relation object: the constructor arguments of `Relation.__init__`
plus the mutable `_cached_data` dict (table name to cached key pool). -/
structure Relation where
  kind : RelKind
  from_table : String
  to_table : String
  from_column : String
  to_column : String
  config : RelationConfig
  cachedData : List (String × List Value)

/-- `Relation.clear_cache`: `self._cached_data.clear()`. -/
def Relation.clear_cache (rel : Relation) : Relation := { rel with cachedData := [] }

/-- A table model (`src/core/base_table.py`): its columns dict and the
generation parameters.  The `relations` list is the attribute the
generated model files populate in `_setup_relations` and that
`ModelRegistry.clear_caches` iterates; `TableModel.__init__` in the
sources never initializes it. -/
structure TableModel where
  columns : List (String × Column)
  relations : List Relation
  rows_per_table : Nat
  batch_size : Nat

/-- Python exceptions that the embedded code can raise. -/
inductive PyErr where
  | keyError (k : String)
  | indexError
deriving Repr, DecidableEq

/-- Generate one value per column, left to right, threading the
randomness — the dict comprehension of `TableModel.generate_row`. -/
def genColumns : List (String × Column) → Rng → Row × Rng
  | [], r => ([], r)
  | (n, c) :: rest, r =>
    let p := c.generate r
    let q := genColumns rest p.2
    ((n, p.1) :: q.1, q.2)

/-- `TableModel.generate_row` (`src/core/base_table.py`, lines 76-81):
`{name: column.generate() for name, column in self.columns.items()}`.
Note it consults only the columns — it takes no registry and touches no
relation. -/
def TableModel.generate_row (m : TableModel) (r : Rng) : Row × Rng :=
  genColumns m.columns r

/-- Python truthiness applied to the `count` argument of
`generate_rows`: `count or self.rows_per_table` falls back to the
default when `count` is `None` or `0`. -/
def pyCount (count : Option Nat) (dflt : Nat) : Nat :=
  match count with
  | none => dflt
  | some c => if c = 0 then dflt else c

/-- `n` repetitions of `generate_row`, threading the randomness. -/
def genRows (m : TableModel) : Nat → Rng → List Row × Rng
  | 0, r => ([], r)
  | n + 1, r =>
    let p := m.generate_row r
    let q := genRows m n p.2
    (p.1 :: q.1, q.2)

/-- `TableModel.generate_rows` (`src/core/base_table.py`, lines 83-91):
`count = count or self.rows_per_table` then a list comprehension calling
`generate_row` `count` times. -/
def TableModel.generate_rows (m : TableModel) (count : Option Nat) (r : Rng) :
    List Row × Rng :=
  genRows m (pyCount count m.rows_per_table) r

/-- The registry's `_models` dict. -/
abbrev ModelRegistry := List (String × TableModel)

/-- `ModelRegistry.get_model` (`src/core/relations.py`, lines 124-128):
raise `KeyError` when the table name is not registered, otherwise return
the registered model. -/
def get_model (reg : ModelRegistry) (t : String) : Except PyErr TableModel :=
  match afind reg t with
  | none => Except.error (PyErr.keyError t)
  | some m => Except.ok m

/-- `ModelRegistry.clear_caches` (`src/core/relations.py`, lines
130-134): for every registered model, clear the cache of each of its
relations. -/
def clear_caches (reg : ModelRegistry) : ModelRegistry :=
  reg.map (fun q => (q.1, { q.2 with relations := q.2.relations.map Relation.clear_cache }))

/-- The pool `_cached_data.get(self.to_table)` holds for the target
table, with the empty list standing for an absent entry. -/
def pyGetCache (rel : Relation) : List Value :=
  (afind rel.cachedData rel.to_table).getD []

/-- Truthiness of `not self._cached_data.get(self.to_table)`: true when
the entry is absent (`None`) or the cached pool is the empty list. -/
def cacheFalsy (rel : Relation) : Bool :=
  match afind rel.cachedData rel.to_table with
  | none => true
  | some l => l.isEmpty

/-- `row[self.to_column]` for each generated row — the list
comprehension collecting the key column, raising `KeyError` when a row
lacks the column. -/
def pyDictGet (row : Row) (k : String) : Except PyErr Value :=
  match afind row k with
  | none => Except.error (PyErr.keyError k)
  | some v => Except.ok v

/-- `[row[self.to_column] for row in rows]`. -/
def keysOf : List Row → String → Except PyErr (List Value)
  | [], _ => Except.ok []
  | row :: rest, k =>
    match pyDictGet row k with
    | Except.error e => Except.error e
    | Except.ok v =>
      match keysOf rest k with
      | Except.error e => Except.error e
      | Except.ok vs => Except.ok (v :: vs)

/-- `Relation._ensure_cached_data` (`src/core/relations.py`, lines
53-61): when the cached pool is falsy or caching is disabled, look up
the target model (may raise `KeyError`), generate `pool_size` rows and
cache their key column; otherwise reuse the cached pool unchanged. -/
def Relation.ensure_cached_data (rel : Relation) (reg : ModelRegistry) (r : Rng) :
    Except PyErr (List Value × Relation × Rng) :=
  if cacheFalsy rel || !rel.config.cache_existing then
    match get_model reg rel.to_table with
    | Except.error e => Except.error e
    | Except.ok m =>
      let p := m.generate_rows (some rel.config.pool_size) r
      match keysOf p.1 rel.to_column with
      | Except.error e => Except.error e
      | Except.ok pool =>
        Except.ok (pool, { rel with cachedData := aset rel.cachedData rel.to_table pool }, p.2)
  else
    Except.ok (pyGetCache rel, rel, r)

/-- `random.choice(seq)`: `IndexError` on an empty sequence, otherwise
an element at a drawn index. -/
def pyChoice (l : List Value) (r : Rng) : Except PyErr (Value × Rng) :=
  match l with
  | [] => Except.error PyErr.indexError
  | a :: as =>
    let p := r.randNat
    Except.ok ((a :: as).get ⟨p.1 % (a :: as).length, Nat.mod_lt _ (Nat.succ_pos _)⟩, p.2)

/-- `random.randint(a, b)` over naturals (faithful for `a ≤ b`). -/
def pyRandintNat (a b : Nat) (r : Rng) : Nat × Rng :=
  let p := r.randNat
  (a + p.1 % (b + 1 - a), p.2)

/-- `random.sample(pop, k)`: `k` distinct positions, removing each pick. -/
def pySample : List Value → Nat → Rng → List Value × Rng
  | _, 0, r => ([], r)
  | [], _ + 1, r => ([], r)
  | a :: as, k + 1, r =>
    let p := r.randNat
    let i := p.1 % (a :: as).length
    let x := (a :: as).get ⟨i, Nat.mod_lt _ (Nat.succ_pos _)⟩
    let rest := (a :: as).take i ++ (a :: as).drop (i + 1)
    let q := pySample rest k p.2
    (x :: q.1, q.2)

/-- Result of `generate_related_data`: a scalar for the to-one kinds, a
list for the to-many kinds. -/
inductive RelResult where
  | one (v : Value)
  | many (vs : List Value)
deriving Repr, DecidableEq

/-- `generate_related_data` of the four relation subclasses
(`src/core/relations.py`).  OneToOne: fetch the target model, generate
one fresh row, return its key, no cache involved.  ManyToOne: ensure the
cached pool, return `random.choice` of it.  OneToMany: draw a count in
`[min_related, max_related]`, generate that many fresh rows, return
their keys.  ManyToMany: draw a count, ensure the pool, sample without
replacement. -/
def Relation.generate_related_data (rel : Relation) (reg : ModelRegistry) (r : Rng) :
    Except PyErr (RelResult × Relation × Rng) :=
  match rel.kind with
  | RelKind.oneToOne =>
    match get_model reg rel.to_table with
    | Except.error e => Except.error e
    | Except.ok m =>
      let p := m.generate_row r
      match pyDictGet p.1 rel.to_column with
      | Except.error e => Except.error e
      | Except.ok v => Except.ok (RelResult.one v, rel, p.2)
  | RelKind.manyToOne =>
    match rel.ensure_cached_data reg r with
    | Except.error e => Except.error e
    | Except.ok (pool, rel', r') =>
      match pyChoice pool r' with
      | Except.error e => Except.error e
      | Except.ok (v, r'') => Except.ok (RelResult.one v, rel', r'')
  | RelKind.oneToMany =>
    let c := pyRandintNat rel.config.min_related rel.config.max_related r
    match get_model reg rel.to_table with
    | Except.error e => Except.error e
    | Except.ok m =>
      let p := m.generate_rows (some c.1) c.2
      match keysOf p.1 rel.to_column with
      | Except.error e => Except.error e
      | Except.ok vs => Except.ok (RelResult.many vs, rel, p.2)
  | RelKind.manyToMany =>
    let c := pyRandintNat rel.config.min_related rel.config.max_related r
    match rel.ensure_cached_data reg c.2 with
    | Except.error e => Except.error e
    | Except.ok (pool, rel', r') =>
      let s := pySample pool (min c.1 pool.length) r'
      Except.ok (RelResult.many s.1, rel', s.2)

/-- `DataInserter._format_value`: identity on the embedded scalar types
(the datetime-to-ISO conversion concerns a type outside this model). -/
def format_value (v : Value) : Value := v

/-- `included_columns` of `DataInserter` (`src/core/data_inserter.py`):
the columns whose `skip_generation` attribute is absent or false. -/
def included_columns (m : TableModel) : List String :=
  (m.columns.filter (fun p => !p.2.skip_generation)).map Prod.fst

/-- The per-row body of `DataInserter._prepare_data` (lines 33-51): keep
only the keys in `included_columns`, formatting each value. -/
def prepare_row (m : TableModel) (row : Row) : Row :=
  (row.filter (fun p => decide (p.1 ∈ included_columns m))).map
    (fun p => (p.1, format_value p.2))

/-- `DataInserter._prepare_data` over a batch. -/
def prepare_data (m : TableModel) (rows : List Row) : List Row :=
  rows.map (prepare_row m)

/-- The `while rows_inserted < total_rows` loop of
`DataInserter.insert_table_data` (lines 86-114), abstracted over the
success of each bulk write (`writeOk k` is the outcome of the `k`-th
`conn.execute`, 0-indexed).  `left` is `total_rows - rows_inserted`;
`remaining = min(batch_size, left)` is the requested batch size; the
generated batch has `remaining` rows unless `remaining` is zero, in
which case `generate_rows` falls back to `rows_per_table` (`dflt`).
`insert_batch` returns `True` without writing when the batch is empty.
The result records success and the list of requested batch sizes, one
entry per bulk write actually performed; `none` means the fuel ran out
(the Python loop would not have terminated yet). -/
def insertLoop (writeOk : Nat → Bool) (bs dflt : Nat) :
    Nat → Nat → Nat → Option (Bool × List Nat)
  | 0, _, _ => none
  | _ + 1, 0, _ => some (true, [])
  | fuel + 1, left + 1, k =>
    let remaining := min bs (left + 1)
    let batchLen := if remaining = 0 then dflt else remaining
    if batchLen = 0 then insertLoop writeOk bs dflt fuel (left + 1) k
    else if writeOk k then
      match insertLoop writeOk bs dflt fuel (left + 1 - batchLen) (k + 1) with
      | none => none
      | some (b, sizes) => some (b, remaining :: sizes)
    else some (false, [remaining])

/-- `DataInserter.insert_table_data` for a table with `total` target
rows, batch size `bs` and default row count `dflt`, with enough fuel for
any positive batch size. -/
def insert_table_data (writeOk : Nat → Bool) (bs dflt total : Nat) :
    Option (Bool × List Nat) :=
  insertLoop writeOk bs dflt (total + 1) total 0

/-- `ceil(total / bs)` over naturals. -/
def ceilDiv (total bs : Nat) : Nat := (total + bs - 1) / bs

/-! ## Helper lemmas -/

theorem genColumns_map_fst (cols : List (String × Column)) (r : Rng) :
    (genColumns cols r).1.map Prod.fst = cols.map Prod.fst := by
  induction cols generalizing r with
  | nil => rfl
  | cons p rest ih =>
    obtain ⟨n, c⟩ := p
    simp [genColumns, ih]

theorem genRows_length (m : TableModel) (n : Nat) (r : Rng) :
    (genRows m n r).1.length = n := by
  induction n generalizing r with
  | zero => rfl
  | succ k ih => simp [genRows, ih]

theorem keysOf_ok_length (rows : List Row) (k : String) (vs : List Value)
    (h : keysOf rows k = Except.ok vs) : vs.length = rows.length := by
  induction rows generalizing vs with
  | nil =>
    simp [keysOf] at h
    simp [← h]
  | cons row rest ih =>
    simp only [keysOf] at h
    cases hg : pyDictGet row k with
    | error e => rw [hg] at h; exact absurd h (by simp)
    | ok v =>
      rw [hg] at h
      cases hr : keysOf rest k with
      | error e => rw [hr] at h; exact absurd h (by simp)
      | ok vs' =>
        rw [hr] at h
        cases h
        simp [ih vs' hr]

theorem afind_append_self {α : Type} (l : List (String × α)) (k : String) (v : α)
    (hmem : akeyMem l k = false) : afind (l ++ [(k, v)]) k = some v := by
  induction l with
  | nil => simp [afind]
  | cons p ps ih =>
    by_cases hp : p.1 = k
    · simp [akeyMem, hp] at hmem
    · simp only [akeyMem, hp, if_false] at hmem
      simp [afind, hp, ih hmem]

theorem afind_map_update {α : Type} (l : List (String × α)) (k : String) (v : α)
    (hmem : akeyMem l k = true) :
    afind (l.map (fun p => if p.1 = k then (k, v) else p)) k = some v := by
  induction l with
  | nil => simp [akeyMem] at hmem
  | cons p ps ih =>
    by_cases hp : p.1 = k
    · simp [afind, hp]
    · simp only [akeyMem, hp, if_false] at hmem
      simp [afind, hp, ih hmem]

theorem afind_aset_self {α : Type} (l : List (String × α)) (k : String) (v : α) :
    afind (aset l k v) k = some v := by
  by_cases hmem : akeyMem l k
  · simp only [aset, hmem, if_true]
    exact afind_map_update l k v hmem
  · simp only [aset, hmem, if_false]
    exact afind_append_self l k v (by simpa using hmem)

theorem pyChoice_ok_mem (l : List Value) (r : Rng) (v : Value) (r' : Rng)
    (h : pyChoice l r = Except.ok (v, r')) : v ∈ l := by
  cases l with
  | nil => exact absurd h (by simp [pyChoice])
  | cons a as =>
    simp only [pyChoice] at h
    cases h
    exact List.get_mem _ _ _

/-- In a model whose column names are distinct (as they are in a Python
dict), a name determines its column. -/
theorem nodup_key_unique {α : Type} (l : List (String × α)) (n : String) (c c' : α)
    (hnd : (l.map Prod.fst).Nodup) (h : (n, c) ∈ l) (h' : (n, c') ∈ l) : c = c' := by
  induction l with
  | nil => cases h
  | cons p ps ih =>
    simp only [List.map_cons, List.nodup_cons] at hnd
    rcases List.mem_cons.mp h with rfl | htail
    · rcases List.mem_cons.mp h' with heq | htail'
      · exact (Prod.mk.injEq _ _ _ _ ▸ heq).2.symm ▸ rfl
      · exact absurd (List.mem_map_of_mem Prod.fst htail') (by simpa using hnd.1)
    · rcases List.mem_cons.mp h' with rfl | htail'
      · exact absurd (List.mem_map_of_mem Prod.fst htail) (by simpa using hnd.1)
      · exact ih hnd.2 htail htail'

/-! ## Concrete fixtures used by witnesses and counterexamples -/

/-- A random stream on which every `random.random()` returns 1 (so no
nullable column draws null) and every integer draw is 0. -/
def rng0 : Rng := { qs := fun _ => 1, ns := fun _ => 0, qi := 0, ni := 0 }

/-- A random stream on which `random.random()` returns 0 (below the 0.1
null threshold). -/
def rngQ0 : Rng := { qs := fun _ => 0, ns := fun _ => 0, qi := 0, ni := 0 }

/-! ## Claim C2 -/

/-- Claim C2 (code_bug evidence): `generate_rows(0)` does not return an
empty sequence — `count = count or self.rows_per_table` treats the
explicit count 0 as falsy, so the call generates `rows_per_table` fresh
rows (invoking every column generator `rows_per_table` times), for every
model and every random stream. -/
theorem c2_generate_rows_zero_returns_default_count (m : TableModel) (r : Rng) :
    ((m.generate_rows (some 0) r).1).length = m.rows_per_table := by
  simp [TableModel.generate_rows, pyCount, genRows_length]

/-! ## Claim C6 -/

/-- The column `ModelGenerator._get_column_type_and_args` emits for an
auto-incrementing primary key: a non-nullable `IntegerColumn` with
`skip_generation=True` and no custom generator (its default generator is
`random.randint(min_value, max_value)` with the generator defaults 1 and
1000000). -/
def c6col : Column :=
  { nullable := false, unique := false, generator := none,
    defaultGen := randintInt 1 1000000, skip_generation := true }

/-- Claim C6 (code_bug evidence): `Column.generate` never consults
`skip_generation` — on the very column the model generator marks
`skip_generation=True`, generation is not bypassed and the result is a
random integer, never null, for every random stream. -/
theorem c6_skip_generation_not_bypassed :
    c6col.skip_generation = true ∧ ∀ r : Rng, (c6col.generate r).1 ≠ Value.null := by
  refine ⟨rfl, ?_⟩
  intro r
  simp [c6col, Column.generate, randintInt]

/-! ## Claim C9 -/

/-- Claim C9: for every nullable column — whatever its custom generator
or type-specific default — `Column.generate` first draws the null trial
and, when the draw is below the fixed threshold 1/10, returns null
immediately, consuming exactly that one draw and invoking no generator. -/
theorem c9_null_before_generator (c : Column) (r : Rng)
    (hn : c.nullable = true) (hq : r.qs r.qi < (1 : ℚ) / 10) :
    c.generate r = (Value.null, { r with qi := r.qi + 1 }) := by
  simp only [Column.generate, Rng.random, hn, if_true]
  rw [if_pos hq]

/-- A nullable column with a custom generator attached. -/
def c9col : Column :=
  { nullable := true, unique := false, generator := some (constGen (Value.int 42)),
    defaultGen := constGen (Value.bool true), skip_generation := false }

/-- Witness for C9: on a stream whose first `random.random()` outcome is
0 (below 1/10), a nullable column with a custom generator yields null. -/
theorem c9_null_before_generator_witness :
    c9col.nullable = true ∧ rngQ0.qs rngQ0.qi < (1 : ℚ) / 10 ∧
    c9col.generate rngQ0 = (Value.null, { rngQ0 with qi := 1 }) :=
  ⟨rfl, by norm_num [rngQ0], c9_null_before_generator c9col rngQ0 rfl (by norm_num [rngQ0])⟩

/-! ## Claim C10 -/

/-- Claim C10: a generated row's key sequence is exactly the model's
defined column names (so every column, including `skip_generation`
ones, appears exactly once and nothing else appears), and a
`skip_generation` column is dropped exactly at `_prepare_data` time:
for distinct column names, a column's name survives into the prepared
row precisely when its `skip_generation` attribute is false. -/
theorem c10_row_keys (m : TableModel) (r : Rng) :
    (m.generate_row r).1.map Prod.fst = m.columns.map Prod.fst ∧
    ∀ n c, (m.columns.map Prod.fst).Nodup → (n, c) ∈ m.columns →
      (n ∈ (prepare_row m (m.generate_row r).1).map Prod.fst ↔
        c.skip_generation = false) := by
  have hA : (m.generate_row r).1.map Prod.fst = m.columns.map Prod.fst :=
    genColumns_map_fst m.columns r
  refine ⟨hA, ?_⟩
  intro n c hnd hmem
  have hkeys : n ∈ (m.generate_row r).1.map Prod.fst := by
    rw [hA]; exact List.mem_map_of_mem Prod.fst hmem
  have hpk : (prepare_row m (m.generate_row r).1).map Prod.fst =
      ((m.generate_row r).1.filter
        (fun p => decide (p.1 ∈ included_columns m))).map Prod.fst := by
    simp [prepare_row, List.map_map]
  have hinc : n ∈ included_columns m ↔ c.skip_generation = false := by
    constructor
    · intro h
      rcases List.mem_map.mp h with ⟨p, hpf, hp1⟩
      rcases List.mem_filter.mp hpf with ⟨hpmem, hskip⟩
      have hpc : p.2 = c := by
        refine nodup_key_unique m.columns n p.2 c hnd ?_ hmem
        rw [← hp1]
        exact hpmem
      rw [← hpc]
      simpa using hskip
    · intro h
      refine List.mem_map_of_mem Prod.fst (List.mem_filter.mpr ⟨hmem, ?_⟩)
      simp [h]
  rw [hpk]
  constructor
  · intro hin
    rcases List.mem_map.mp hin with ⟨p, hpf, hp1⟩
    rcases List.mem_filter.mp hpf with ⟨_, hq⟩
    have hp : p.1 ∈ included_columns m := of_decide_eq_true hq
    rw [hp1] at hp
    exact hinc.mp hp
  · intro hsk
    rcases List.mem_map.mp hkeys with ⟨p, hpmem, hp1⟩
    refine List.mem_map.mpr ⟨p, List.mem_filter.mpr ⟨hpmem, ?_⟩, hp1⟩
    rw [hp1]
    exact decide_eq_true (hinc.mpr hsk)

/-- A skip-generation id column as the model generator emits. -/
def c10colId : Column :=
  { nullable := false, unique := false, generator := none,
    defaultGen := randintInt 1 1000000, skip_generation := true }

/-- An ordinary string column. -/
def c10colName : Column :=
  { nullable := false, unique := false, generator := some (constGen (Value.str "x")),
    defaultGen := constGen Value.null, skip_generation := false }

/-- A two-column model: a skip-generation id and a regular name. -/
def c10model : TableModel :=
  { columns := [("id", c10colId), ("name", c10colName)], relations := [],
    rows_per_table := 5, batch_size := 2 }

/-- Witness for C10: on a concrete model the generated row's keys are
exactly the two defined columns, the skipped id is present in the row,
and the id survives into the prepared insertion row iff its
`skip_generation` flag is false (here: it does not survive). -/
theorem c10_row_keys_witness :
    ((c10model.generate_row rng0).1.map Prod.fst = ["id", "name"]) ∧
    ("id" ∈ (prepare_row c10model (c10model.generate_row rng0).1).map Prod.fst ↔
      c10colId.skip_generation = false) :=
  ⟨(c10_row_keys c10model rng0).1,
   (c10_row_keys c10model rng0).2 "id" c10colId (by decide) (List.Mem.head _)⟩

/-! ## Claim C1 -/

/-- The `employee_id` column of a title-like generated model: its own
generator draws `random.randint(1, 1000000)`. -/
def c1IdCol : Column :=
  { nullable := false, unique := false, generator := some (randintInt 1 1000000),
    defaultGen := randintInt 1 1000000, skip_generation := false }

/-- The ManyToOne relation the generated `TitleTable._setup_relations`
declares on `employee_id`. -/
def c1rel : Relation :=
  { kind := RelKind.manyToOne, from_table := "title", to_table := "employee",
    from_column := "employee_id", to_column := "id",
    config := RelationConfig.default, cachedData := [] }

/-- An employee model whose key generator always yields 77, so resolver
output and column-generator output are distinguishable. -/
def c1empCol : Column :=
  { nullable := false, unique := false, generator := some (constGen (Value.int 77)),
    defaultGen := constGen (Value.int 77), skip_generation := false }

/-- The referenced employee model. -/
def c1empModel : TableModel :=
  { columns := [("id", c1empCol)], relations := [], rows_per_table := 10,
    batch_size := 100 }

/-- The title model carrying the relation. -/
def c1titleModel : TableModel :=
  { columns := [("employee_id", c1IdCol)], relations := [c1rel],
    rows_per_table := 10, batch_size := 100 }

/-- Registry with both tables registered. -/
def c1reg : ModelRegistry := [("employee", c1empModel), ("title", c1titleModel)]

/-- Claim C1 (code_bug evidence): `TableModel.generate_row` fills every
column — including the `from_column` of the model's relation — from the
column's own value generator and never invokes the relation resolver:
on this model the generated `employee_id` is the column-generator value
1, while the relation resolver run on the very same state returns the
referenced key 77. -/
theorem c1_generate_row_ignores_relations :
    c1titleModel.relations = [c1rel] ∧
    (c1titleModel.generate_row rng0).1 = [("employee_id", Value.int 1)] ∧
    Except.map (fun t => t.1) (c1rel.generate_related_data c1reg rng0) =
      Except.ok (RelResult.one (Value.int 77)) ∧
    Value.int 1 ≠ Value.int 77 :=
  ⟨rfl, rfl, rfl, by decide⟩

/-! ## Claim C4 -/

/-- Claim C4, amended part (proved): a OneToOne resolution looks up the
referenced model, generates exactly one fresh row with it (the random
state advances by exactly that one `generate_row` call), returns that
row's `to_column` value, and leaves the relation — in particular its
cache — unchanged. -/
theorem c4_one_to_one_fresh_row (rel : Relation) (reg : ModelRegistry) (r : Rng)
    (hk : rel.kind = RelKind.oneToOne) (v : RelResult) (rel' : Relation) (r' : Rng)
    (h : rel.generate_related_data reg r = Except.ok (v, rel', r')) :
    rel' = rel ∧
    ∃ m row key, get_model reg rel.to_table = Except.ok m ∧
      m.generate_row r = (row, r') ∧
      pyDictGet row rel.to_column = Except.ok key ∧ v = RelResult.one key := by
  obtain ⟨kind, ft, tt, fc, tc, cfg, cd⟩ := rel
  change kind = RelKind.oneToOne at hk
  subst hk
  simp only [Relation.generate_related_data] at h
  cases hm : get_model reg tt with
  | error e => rw [hm] at h; simp at h
  | ok m =>
    rw [hm] at h
    dsimp only at h
    cases hg : pyDictGet (m.generate_row r).1 tc with
    | error e => rw [hg] at h; simp at h
    | ok key =>
      rw [hg] at h
      dsimp only at h
      simp only [Except.ok.injEq, Prod.mk.injEq] at h
      obtain ⟨hv, hrel, hr⟩ := h
      refine ⟨hrel.symm, m, (m.generate_row r).1, key, rfl, ?_, hg, hv.symm⟩
      rw [← hr]

/-- The employee key column of `EmployeeTable._setup_columns`:
`generator=lambda: random.randint(1, 1000000)`, no uniqueness flag. -/
def c4empCol : Column :=
  { nullable := false, unique := false, generator := some (randintInt 1 1000000),
    defaultGen := randintInt 1 1000000, skip_generation := false }

/-- The referenced employee model for the OneToOne counterexample. -/
def c4empModel : TableModel :=
  { columns := [("id", c4empCol)], relations := [], rows_per_table := 10,
    batch_size := 100 }

/-- Registry with the employee model registered. -/
def c4reg : ModelRegistry := [("employee", c4empModel)]

/-- A OneToOne relation targeting `employee.id`. -/
def c4rel : Relation :=
  { kind := RelKind.oneToOne, from_table := "passport", to_table := "employee",
    from_column := "employee_id", to_column := "id",
    config := RelationConfig.default, cachedData := [] }

/-- Counterexample to Claim C4 as stated: the referenced table has no
uniqueness constraint at all, yet two successive OneToOne resolutions
return the same key (on the random stream whose integer draws are all 0,
`random.randint(1, 1000000)` yields 1 both times). -/
theorem c4_one_to_one_same_key_counterexample :
    c4rel.generate_related_data c4reg rng0 =
      Except.ok (RelResult.one (Value.int 1), c4rel, { rng0 with ni := 1 }) ∧
    c4rel.generate_related_data c4reg { rng0 with ni := 1 } =
      Except.ok (RelResult.one (Value.int 1), c4rel, { rng0 with ni := 2 }) :=
  ⟨rfl, rfl⟩

/-- Witness for the amended C4 theorem at a concrete resolution. -/
theorem c4_one_to_one_fresh_row_witness :
    c4rel = c4rel ∧
    ∃ m row key, get_model c4reg c4rel.to_table = Except.ok m ∧
      m.generate_row rng0 = (row, { rng0 with ni := 1 }) ∧
      pyDictGet row c4rel.to_column = Except.ok key ∧
      RelResult.one (Value.int 1) = RelResult.one key :=
  c4_one_to_one_fresh_row c4rel c4reg rng0 rfl (RelResult.one (Value.int 1)) c4rel
    { rng0 with ni := 1 } rfl

/-! ## Claim C7 -/

/-- Claim C7, amended (proved): `get_model` raises `KeyError` exactly on
unregistered names and returns the registered model otherwise; a
relation resolution whose target is unregistered raises that lookup
error whenever it consults the registry — always for OneToOne, and for
ManyToOne whenever the pool must be (re)built (falsy cached pool, or
caching disabled). -/
theorem c7_registry_lookup :
    (∀ (reg : ModelRegistry) (t : String), afind reg t = none →
      get_model reg t = Except.error (PyErr.keyError t)) ∧
    (∀ (reg : ModelRegistry) (t : String) (m : TableModel), afind reg t = some m →
      get_model reg t = Except.ok m) ∧
    (∀ (rel : Relation) (reg : ModelRegistry) (r : Rng),
      rel.kind = RelKind.oneToOne → afind reg rel.to_table = none →
      rel.generate_related_data reg r = Except.error (PyErr.keyError rel.to_table)) ∧
    (∀ (rel : Relation) (reg : ModelRegistry) (r : Rng),
      rel.kind = RelKind.manyToOne →
      (cacheFalsy rel || !rel.config.cache_existing) = true →
      afind reg rel.to_table = none →
      rel.generate_related_data reg r = Except.error (PyErr.keyError rel.to_table)) := by
  refine ⟨?_, ?_, ?_, ?_⟩
  · intro reg t h; simp [get_model, h]
  · intro reg t m h; simp [get_model, h]
  · intro rel reg r hk h
    obtain ⟨kind, ft, tt, fc, tc, cfg, cd⟩ := rel
    change kind = RelKind.oneToOne at hk
    subst hk
    simp only [Relation.generate_related_data, get_model]
    change afind reg tt = none at h
    rw [h]
  · intro rel reg r hk hcond h
    obtain ⟨kind, ft, tt, fc, tc, cfg, cd⟩ := rel
    change kind = RelKind.manyToOne at hk
    subst hk
    simp only [Relation.generate_related_data, Relation.ensure_cached_data, get_model]
    rw [if_pos hcond]
    change afind reg tt = none at h
    rw [h]

/-- A ManyToOne relation whose pool for `employee` is already cached. -/
def c7rel : Relation :=
  { kind := RelKind.manyToOne, from_table := "salary", to_table := "employee",
    from_column := "employee_id", to_column := "id",
    config := RelationConfig.default, cachedData := [("employee", [Value.int 5])] }

/-- Counterexample to Claim C7 as stated: with a warm cached pool and
caching enabled, a ManyToOne resolution whose target table is absent
from the registry does not raise any lookup error — it returns a cached
key — even though `get_model` on that name would raise `KeyError`. -/
theorem c7_warm_cache_counterexample :
    get_model ([] : ModelRegistry) c7rel.to_table =
      Except.error (PyErr.keyError "employee") ∧
    c7rel.generate_related_data [] rng0 =
      Except.ok (RelResult.one (Value.int 5), c7rel, { rng0 with ni := 1 }) :=
  ⟨rfl, rfl⟩

/-- A cold ManyToOne relation (empty cache). -/
def c7coldRel : Relation :=
  { kind := RelKind.manyToOne, from_table := "salary", to_table := "employee",
    from_column := "employee_id", to_column := "id",
    config := RelationConfig.default, cachedData := [] }

/-- Witness for the amended C7 theorem: an unregistered lookup raises
`KeyError`, and a cold ManyToOne resolution of an unregistered target
raises the same error. -/
theorem c7_registry_lookup_witness :
    get_model ([] : ModelRegistry) "employee" =
      Except.error (PyErr.keyError "employee") ∧
    c7coldRel.generate_related_data [] rng0 =
      Except.error (PyErr.keyError "employee") :=
  ⟨c7_registry_lookup.1 [] "employee" rfl,
   c7_registry_lookup.2.2.2 c7coldRel [] rng0 rfl (by decide) rfl⟩

/-! ## Claim C3 -/

/-- The cached-pool truthiness test is emptiness of the pool view. -/
theorem cacheFalsy_eq_isEmpty (rel : Relation) :
    cacheFalsy rel = (pyGetCache rel).isEmpty := by
  unfold cacheFalsy pyGetCache
  cases afind rel.cachedData rel.to_table with
  | none => rfl
  | some l => rfl

/-- After caching a freshly built pool, the pool view returns it. -/
theorem pyGetCache_aset (rel : Relation) (pool : List Value) :
    pyGetCache { rel with cachedData := aset rel.cachedData rel.to_table pool } = pool := by
  unfold pyGetCache
  show (afind (aset rel.cachedData rel.to_table pool) rel.to_table).getD [] = pool
  rw [afind_aset_self]
  rfl

/-- `generate_rows` produces `pyCount count rows_per_table` rows. -/
theorem generate_rows_length (m : TableModel) (c : Option Nat) (r : Rng) :
    (m.generate_rows c r).1.length = pyCount c m.rows_per_table := by
  unfold TableModel.generate_rows
  exact genRows_length m _ r

/-- Case analysis of `_ensure_cached_data`: on success the returned
relation's pool view is the returned pool; either the pool was rebuilt
(`pool_size` rows of the looked-up target model) or it was reused
unchanged; and when the cached pool is truthy and caching enabled, the
relation comes back untouched. -/
theorem ensure_cached_data_cases (rel : Relation) (reg : ModelRegistry) (r : Rng)
    (pool : List Value) (rel' : Relation) (r' : Rng)
    (h : rel.ensure_cached_data reg r = Except.ok (pool, rel', r')) :
    pyGetCache rel' = pool ∧ rel'.config = rel.config ∧
    ((∃ m, get_model reg rel.to_table = Except.ok m ∧
        pool.length = pyCount (some rel.config.pool_size) m.rows_per_table) ∨
      (pool = pyGetCache rel ∧ rel' = rel ∧ r' = r)) ∧
    ((cacheFalsy rel || !rel.config.cache_existing) = false → rel' = rel) := by
  unfold Relation.ensure_cached_data at h
  by_cases hcond : (cacheFalsy rel || !rel.config.cache_existing) = true
  · rw [if_pos hcond] at h
    cases hm : get_model reg rel.to_table with
    | error e => rw [hm] at h; simp at h
    | ok m =>
      rw [hm] at h
      dsimp only at h
      cases hkeys : keysOf (m.generate_rows (some rel.config.pool_size) r).1 rel.to_column with
      | error e => rw [hkeys] at h; simp at h
      | ok pool0 =>
        rw [hkeys] at h
        dsimp only at h
        simp only [Except.ok.injEq, Prod.mk.injEq] at h
        obtain ⟨hp, hrel, hr⟩ := h
        refine ⟨?_, ?_, Or.inl ⟨m, rfl, ?_⟩, ?_⟩
        · rw [← hrel, pyGetCache_aset]
          exact hp
        · rw [← hrel]
        · rw [← hp, keysOf_ok_length _ _ _ hkeys]
          exact generate_rows_length m (some rel.config.pool_size) r
        · intro hf
          rw [hf] at hcond
          exact absurd hcond (by simp)
  · rw [if_neg hcond] at h
    simp only [Except.ok.injEq, Prod.mk.injEq] at h
    obtain ⟨hp, hrel, hr⟩ := h
    refine ⟨?_, ?_, Or.inr ⟨hp.symm, hrel.symm, hr.symm⟩, fun _ => hrel.symm⟩
    · rw [← hrel]
      exact hp
    · rw [← hrel]

/-- Claim C3, amended (proved): for a ManyToOne relation with a positive
`pool_size` and a cache respecting the pool bound, a successful
resolution returns a key drawn from the cached pool of the returned
relation; that pool keeps at most `pool_size` distinct values; the pool
is non-falsy afterwards; and when caching is enabled and the cached pool
was already truthy, the relation (hence its pool) is reused unchanged. -/
theorem c3_many_to_one_pool (rel : Relation) (reg : ModelRegistry) (r : Rng)
    (hk : rel.kind = RelKind.manyToOne) (hps : 1 ≤ rel.config.pool_size)
    (hcache : (pyGetCache rel).dedup.length ≤ rel.config.pool_size)
    (v : RelResult) (rel' : Relation) (r' : Rng)
    (h : rel.generate_related_data reg r = Except.ok (v, rel', r')) :
    (∃ key, v = RelResult.one key ∧ key ∈ pyGetCache rel') ∧
    (pyGetCache rel').dedup.length ≤ rel.config.pool_size ∧
    cacheFalsy rel' = false ∧
    (rel.config.cache_existing = true → cacheFalsy rel = false → rel' = rel) := by
  simp only [Relation.generate_related_data] at h
  rw [hk] at h
  dsimp only at h
  cases hens : rel.ensure_cached_data reg r with
  | error e => rw [hens] at h; simp at h
  | ok trip =>
    obtain ⟨pool, rel'', r''⟩ := trip
    rw [hens] at h
    dsimp only at h
    cases hch : pyChoice pool r'' with
    | error e => rw [hch] at h; simp at h
    | ok pr =>
      obtain ⟨vv, r3⟩ := pr
      rw [hch] at h
      dsimp only at h
      simp only [Except.ok.injEq, Prod.mk.injEq] at h
      obtain ⟨hv, hrel, hr⟩ := h
      have hmem : vv ∈ pool := pyChoice_ok_mem pool r'' vv r3 hch
      have hpoolne : pool ≠ [] := by
        intro hnil
        rw [hnil] at hch
        exact absurd hch (by simp [pyChoice])
      obtain ⟨hpc, hcfg, hbranch, hreuse⟩ :=
        ensure_cached_data_cases rel reg r pool rel'' r'' hens
      refine ⟨⟨vv, hv.symm, ?_⟩, ?_, ?_, ?_⟩
      · rw [← hrel, hpc]
        exact hmem
      · rw [← hrel, hpc]
        rcases hbranch with ⟨m, _, hlen⟩ | ⟨hpe, _, _⟩
        · have hcnt : pyCount (some rel.config.pool_size) m.rows_per_table =
              rel.config.pool_size := by
            simp only [pyCount]
            rw [if_neg (by omega)]
          have hd : pool.dedup.length ≤ pool.length :=
            (List.dedup_sublist pool).length_le
          omega
        · rw [hpe]
          exact hcache
      · rw [← hrel, cacheFalsy_eq_isEmpty, hpc]
        cases pool with
        | nil => exact absurd rfl hpoolne
        | cons a as => rfl
      · intro hce hcf
        rw [← hrel]
        refine hreuse ?_
        rw [hcf, hce]
        rfl

/-- An employee key column whose generator always yields 77. -/
def c3empCol77 : Column :=
  { nullable := false, unique := false, generator := some (constGen (Value.int 77)),
    defaultGen := constGen (Value.int 77), skip_generation := false }

/-- An employee model with `rows_per_table = 2`. -/
def c3empModel0 : TableModel :=
  { columns := [("id", c3empCol77)], relations := [], rows_per_table := 2,
    batch_size := 100 }

/-- Registry for the pool-size-zero counterexample. -/
def c3reg0 : ModelRegistry := [("employee", c3empModel0)]

/-- A relation configuration with `pool_size = 0`. -/
def c3cfg0 : RelationConfig :=
  { min_related := 1, max_related := 5, auto_generate := true,
    cache_existing := true, pool_size := 0 }

/-- A cold ManyToOne relation with `pool_size = 0`. -/
def c3rel0 : Relation :=
  { kind := RelKind.manyToOne, from_table := "salary", to_table := "employee",
    from_column := "employee_id", to_column := "id", config := c3cfg0,
    cachedData := [] }

/-- The relation after its pool has been (re)built. -/
def c3relAfter0 : Relation :=
  { c3rel0 with cachedData := [("employee", [Value.int 77, Value.int 77])] }

/-- Counterexample to Claim C3 as stated: with `pool_size = 0` (a legal
`RelationConfig`), `generate_rows(0)` falls back to `rows_per_table`, so
the rebuilt pool holds two keys — strictly more than `pool_size`
distinct values — and the resolution still succeeds from that pool. -/
theorem c3_pool_size_zero_counterexample :
    c3rel0.config.pool_size = 0 ∧
    c3rel0.generate_related_data c3reg0 rng0 =
      Except.ok (RelResult.one (Value.int 77), c3relAfter0, { rng0 with ni := 1 }) ∧
    c3rel0.config.pool_size < (pyGetCache c3relAfter0).dedup.length :=
  ⟨rfl, rfl, by decide⟩

/-- An employee model with `rows_per_table = 4` for the C3 witness. -/
def c3wEmpModel : TableModel :=
  { columns := [("id", c3empCol77)], relations := [], rows_per_table := 4,
    batch_size := 100 }

/-- Registry for the C3 witness. -/
def c3wReg : ModelRegistry := [("employee", c3wEmpModel)]

/-- A relation configuration with `pool_size = 2`. -/
def c3wCfg : RelationConfig :=
  { min_related := 1, max_related := 5, auto_generate := true,
    cache_existing := true, pool_size := 2 }

/-- A cold ManyToOne relation with `pool_size = 2`. -/
def c3wRel : Relation :=
  { kind := RelKind.manyToOne, from_table := "salary", to_table := "employee",
    from_column := "employee_id", to_column := "id", config := c3wCfg,
    cachedData := [] }

/-- The same relation after its pool of two keys has been built. -/
def c3wRelAfter : Relation :=
  { c3wRel with cachedData := [("employee", [Value.int 77, Value.int 77])] }

/-- Witness for the amended C3 theorem at a concrete first resolution. -/
theorem c3_many_to_one_pool_witness :
    (1 ≤ c3wRel.config.pool_size ∧
      (pyGetCache c3wRel).dedup.length ≤ c3wRel.config.pool_size) ∧
    ((∃ key, RelResult.one (Value.int 77) = RelResult.one key ∧
        key ∈ pyGetCache c3wRelAfter) ∧
      (pyGetCache c3wRelAfter).dedup.length ≤ c3wRel.config.pool_size ∧
      cacheFalsy c3wRelAfter = false ∧
      (c3wRel.config.cache_existing = true → cacheFalsy c3wRel = false →
        c3wRelAfter = c3wRel)) :=
  ⟨⟨by decide, by decide⟩,
   c3_many_to_one_pool c3wRel c3wReg rng0 rfl (by decide) (by decide)
     (RelResult.one (Value.int 77)) c3wRelAfter { rng0 with ni := 1 } rfl⟩

/-! ## Claim C8 -/

/-- Claim C8: after `ModelRegistry.clear_caches`, every relation of
every registered model has an empty `_cached_data`, so its cached pool
is falsy and the next resolution that consults it must rebuild the pool
before returning any key. -/
theorem c8_clear_caches_empties (reg : ModelRegistry) (p : String × TableModel)
    (hp : p ∈ clear_caches reg) (rel : Relation) (hrel : rel ∈ p.2.relations) :
    rel.cachedData = [] ∧ cacheFalsy rel = true := by
  rcases List.mem_map.mp hp with ⟨q, _, hpq⟩
  rw [← hpq] at hrel
  rcases List.mem_map.mp hrel with ⟨r0, _, hr0⟩
  exact ⟨by rw [← hr0]; rfl, by rw [← hr0]; rfl⟩

/-- A relation with a warm cache, to be cleared. -/
def c8rel : Relation :=
  { kind := RelKind.manyToOne, from_table := "salary", to_table := "employee",
    from_column := "employee_id", to_column := "id",
    config := RelationConfig.default, cachedData := [("employee", [Value.int 9])] }

/-- A registered model holding that relation. -/
def c8model : TableModel :=
  { columns := [], relations := [c8rel], rows_per_table := 3, batch_size := 2 }

/-- A one-table registry. -/
def c8reg : ModelRegistry := [("salary", c8model)]

/-- The model as it appears after `clear_caches`. -/
def c8modelAfter : TableModel := { c8model with relations := [c8rel.clear_cache] }

/-- Witness for C8 on the concrete registry: after clearing, the cached
pool that held key 9 is gone and the cache is falsy. -/
theorem c8_clear_caches_empties_witness :
    (c8rel.clear_cache).cachedData = [] ∧ cacheFalsy c8rel.clear_cache = true :=
  c8_clear_caches_empties c8reg ("salary", c8modelAfter)
    (List.mem_singleton.mpr rfl) c8rel.clear_cache (List.mem_singleton.mpr rfl)

/-! ## Claim C5 -/

theorem ceilDiv_zero (bs : Nat) : ceilDiv 0 bs = 0 := by
  unfold ceilDiv
  cases bs with
  | zero => rfl
  | succ b => exact Nat.div_eq_of_lt (by omega)

theorem ceilDiv_pos (total bs : Nat) (hbs : 1 ≤ bs) (ht : 1 ≤ total) :
    1 ≤ ceilDiv total bs :=
  (Nat.le_div_iff_mul_le (by omega)).mpr (by omega)

/-- One batch of `min bs left` rows reduces the remaining ceiling count
by exactly one. -/
theorem ceilDiv_step (left bs : Nat) (hbs : 1 ≤ bs) (hl : 1 ≤ left) :
    ceilDiv left bs = ceilDiv (left - min bs left) bs + 1 := by
  unfold ceilDiv
  rcases Nat.le_total left bs with hle | hle
  · have hmin : min bs left = left := by omega
    rw [hmin]
    have h0 : left - left = 0 := by omega
    rw [h0]
    have hz : (0 + bs - 1) / bs = 0 := Nat.div_eq_of_lt (by omega)
    rw [hz]
    have h1 : left + bs - 1 = (left - 1) + bs := by omega
    rw [h1, Nat.add_div_right _ (by omega)]
    rw [Nat.div_eq_of_lt (show left - 1 < bs by omega)]
  · have hmin : min bs left = bs := by omega
    rw [hmin]
    have h2 : left - bs + bs - 1 = left - 1 := by omega
    have h1 : left + bs - 1 = (left - 1) + bs := by omega
    rw [h2, h1, Nat.add_div_right _ (by omega)]

/-- When every bulk write succeeds, the insertion loop performs exactly
`ceil(left / bs)` writes, requesting `min bs remaining` rows each
time. -/
theorem insertLoop_success (writeOk : Nat → Bool) (bs dflt : Nat) (hbs : 1 ≤ bs) :
    ∀ fuel left k, left < fuel →
      (∀ j, j < ceilDiv left bs → writeOk (k + j) = true) →
      ∃ sizes, insertLoop writeOk bs dflt fuel left k = some (true, sizes) ∧
        sizes.length = ceilDiv left bs ∧
        ∀ i, ∀ h : i < sizes.length, sizes.get ⟨i, h⟩ = min bs (left - bs * i) := by
  intro fuel
  induction fuel with
  | zero => intro left k h; omega
  | succ f ih =>
    intro left k hlf hall
    cases left with
    | zero =>
      refine ⟨[], rfl, by rw [ceilDiv_zero]; rfl, ?_⟩
      intro i h
      simp at h
    | succ l =>
      have hmin : 1 ≤ min bs (l + 1) := Nat.le_min.mpr ⟨hbs, by omega⟩
      have h0 : ¬ (min bs (l + 1) = 0) := by omega
      have hcd : ceilDiv (l + 1) bs = ceilDiv (l + 1 - min bs (l + 1)) bs + 1 :=
        ceilDiv_step (l + 1) bs hbs (by omega)
      have hw : writeOk k = true := by
        have := hall 0 (by rw [hcd]; omega)
        simpa using this
      have hrec := ih (l + 1 - min bs (l + 1)) (k + 1) (by omega) ?_
      · obtain ⟨sizes', heq, hlen, hget⟩ := hrec
        refine ⟨min bs (l + 1) :: sizes', ?_, ?_, ?_⟩
        · simp only [insertLoop]
          rw [if_neg h0, if_neg h0, if_pos hw, heq]
        · simp only [List.length_cons, hlen]
          omega
        · intro i h
          cases i with
          | zero => simp
          | succ i' =>
            have h' : i' < sizes'.length := by
              simpa using h
            have := hget i' h'
            simp only [List.get_cons_succ]
            rw [this]
            by_cases hble : bs ≤ l + 1
            · have hm2 : min bs (l + 1) = bs := by omega
              rw [hm2, Nat.mul_succ]
              congr 1
              have : bs * i' + bs = bs + bs * i' := by omega
              omega
            · exfalso
              have hm2 : min bs (l + 1) = l + 1 := by omega
              rw [hm2] at hlen
              have : l + 1 - (l + 1) = 0 := by omega
              rw [this, ceilDiv_zero] at hlen
              omega
      · intro j hj
        have hj1 : j + 1 < ceilDiv (l + 1) bs := by rw [hcd]; omega
        have := hall (j + 1) hj1
        have hk : k + (j + 1) = k + 1 + j := by omega
        rw [hk] at this
        exact this

/-- When the `j`-th bulk write is the first to fail (0-indexed, within
the planned batch count), the loop stops with failure after exactly
`j + 1` writes. -/
theorem insertLoop_failure (writeOk : Nat → Bool) (bs dflt : Nat) (hbs : 1 ≤ bs) :
    ∀ fuel left k j, left < fuel → j < ceilDiv left bs →
      (∀ i, i < j → writeOk (k + i) = true) → writeOk (k + j) = false →
      ∃ sizes, insertLoop writeOk bs dflt fuel left k = some (false, sizes) ∧
        sizes.length = j + 1 := by
  intro fuel
  induction fuel with
  | zero => intro left k j h; omega
  | succ f ih =>
    intro left k j hlf hj hprev hfail
    cases left with
    | zero =>
      rw [ceilDiv_zero] at hj
      omega
    | succ l =>
      have hmin : 1 ≤ min bs (l + 1) := Nat.le_min.mpr ⟨hbs, by omega⟩
      have h0 : ¬ (min bs (l + 1) = 0) := by omega
      have hcd : ceilDiv (l + 1) bs = ceilDiv (l + 1 - min bs (l + 1)) bs + 1 :=
        ceilDiv_step (l + 1) bs hbs (by omega)
      cases j with
      | zero =>
        have hw : writeOk k = false := by simpa using hfail
        refine ⟨[min bs (l + 1)], ?_, rfl⟩
        simp only [insertLoop]
        rw [if_neg h0, if_neg h0, if_neg (by simp [hw])]
      | succ j' =>
        have hw : writeOk k = true := by
          have := hprev 0 (by omega)
          simpa using this
        have hrec := ih (l + 1 - min bs (l + 1)) (k + 1) j' (by omega)
          (by rw [hcd] at hj; omega) ?_ ?_
        · obtain ⟨sizes', heq, hlen⟩ := hrec
          refine ⟨min bs (l + 1) :: sizes', ?_, ?_⟩
          · simp only [insertLoop]
            rw [if_neg h0, if_neg h0, if_pos hw, heq]
          · simp [hlen]
        · intro i hi
          have := hprev (i + 1) (by omega)
          have hk : k + (i + 1) = k + 1 + i := by omega
          rw [hk] at this
          exact this
        · have hk : k + (j' + 1) = k + 1 + j' := by omega
          rw [hk] at hfail
          exact hfail

/-- Claim C5: with a positive batch size, the insertion driver requests
`min(batch_size, remaining)` rows per batch; when every bulk write
succeeds it performs exactly `ceil(total / batch_size)` writes and
reports success; and when the `j`-th write is the first to fail it
reports failure for the table after exactly `j + 1` write attempts —
no batch beyond the failing one is attempted. -/
theorem c5_batch_insertion (total bs dflt : Nat) (writeOk : Nat → Bool)
    (hbs : 1 ≤ bs) :
    ((∀ j, j < ceilDiv total bs → writeOk j = true) →
      ∃ sizes, insert_table_data writeOk bs dflt total = some (true, sizes) ∧
        sizes.length = ceilDiv total bs ∧
        ∀ i, ∀ h : i < sizes.length, sizes.get ⟨i, h⟩ = min bs (total - bs * i)) ∧
    (∀ j, j < ceilDiv total bs → (∀ i, i < j → writeOk i = true) →
      writeOk j = false →
      ∃ sizes, insert_table_data writeOk bs dflt total = some (false, sizes) ∧
        sizes.length = j + 1) := by
  constructor
  · intro hall
    have h := insertLoop_success writeOk bs dflt hbs (total + 1) total 0
      (by omega) (by simpa using hall)
    simpa [insert_table_data] using h
  · intro j hj hprev hfail
    have h := insertLoop_failure writeOk bs dflt hbs (total + 1) total 0 j
      (by omega) hj (by simpa using hprev) (by simpa using hfail)
    simpa [insert_table_data] using h

/-- Witness for C5: inserting 1000 rows with batch size 250 and all
writes succeeding performs exactly `ceil(1000 / 250) = 4` bulk
writes. -/
theorem c5_batch_insertion_witness :
    (1 ≤ 250) ∧
    ∃ sizes, insert_table_data (fun _ => true) 250 7 1000 = some (true, sizes) ∧
      sizes.length = ceilDiv 1000 250 :=
  ⟨by decide, by
    obtain ⟨sizes, h1, h2, _⟩ :=
      (c5_batch_insertion 1000 250 7 (fun _ => true) (by decide)).1 (fun j _ => rfl)
    exact ⟨sizes, h1, h2⟩⟩

end TrueMock
